import Mathlib

/-!
# alloydb-conn: a shallow embedding of `main.go`

The program reads six environment variables, composes an AlloyDB instance URI,
opens a pgx pool through the AlloyDB dialer, runs `SELECT NOW()` and prints the
answer.  Everything it does is a sequence of calls into the process environment
and two libraries, so the embedding is explicit state passing over a trace of
those calls:

* Go strings are Lean `String`s; a Go `error` is observed through the text of
  its `Error()` method, and `nil` is `none`;
* the libraries (`alloydbconn`, `pgxpool`), the Go runtime's map iteration order
  and the process environment are parameters (`World`, `env`);
* `log.Fatalf` writes its message and calls `os.Exit(1)`, which does not run
  deferred calls; a normal return from `main` runs them last-in first-out.
-/

set_option autoImplicit false

namespace AlloyDBConn

/-! ## Library values -/

/-- Handle of an `alloydbconn.Dialer`. -/
structure Dialer where
  id : Nat
  deriving DecidableEq, Repr

/-- Handle of a `pgxpool.Pool`. -/
structure Pool where
  id : Nat
  deriving DecidableEq, Repr

/-- An `alloydbconn.Option`; the program only ever builds `WithIAMAuthN()`. -/
inductive DialerOption where
  | WithIAMAuthN
  deriving DecidableEq, Repr

/-- A `pgxpool.Config`: what `ParseConfig` made of the connection string, and the
`ConnConfig.DialFunc` override, recorded as the dialer and the instance URI the
closure of `connectPgx` dials. -/
structure Config where
  parsed : String
  DialFunc : Option (Dialer × String)
  deriving DecidableEq, Repr

/-- A `time.Time`, observed through the text of its `String()` method, which is
what the `%s` verb prints. -/
structure Time where
  text : String
  deriving DecidableEq, Repr

/-- Calls that leave the program, in the order they happen. -/
inductive Event where
  | NewDialer (opts : List DialerOption)
  | ParseConfig (dsn : String)
  | NewWithConfig (config : Config)
  | DialerClose (d : Dialer)
  | PoolClose (p : Pool)
  | QueryRow (p : Pool) (sql : String)
  | Printf (text : String)
  | LogFatal (msg : String)
  | Panic
  deriving DecidableEq, Repr

/-- The collaborators of the program: the two libraries and the Go runtime's
choice of iteration order for `range` over a map. -/
structure World where
  NewDialer : List DialerOption → Except String Dialer
  ParseConfig : String → Except String Config
  NewWithConfig : Config → Except String Pool
  DialerClose : Dialer → Option String
  QueryRowScan : Pool → String → Except String Time
  rangeOrder : List (String × String) → List (String × String)

/-- A Go `func() error` value once it is non-nil: it acts on the trace and
returns its error. -/
abbrev Cleanup := List Event → Option String × List Event

/-! ## `fmt.Sprintf`, for the verbs the program uses -/

/-- The formatting loop of `fmt.Sprintf` on operands that are strings, errors or
`Stringer`s, each given by its text.  `%s` and `%v` print the next operand
verbatim, `%%` prints a percent sign, an operand that is missing prints Go's
`%!s(MISSING)` marker and a lone trailing `%` prints `%!(NOVERB)`.  Other verbs
and surplus operands do not occur in `main.go`: such a verb is copied through and
surplus operands are dropped. -/
def sprintfAux : List Char → List String → List Char
  | [], _ => []
  | c :: rest, args =>
    if c = '%' then
      match rest with
      | [] => "%!(NOVERB)".toList
      | v :: rest' =>
        if v = '%' then '%' :: sprintfAux rest' args
        else if v = 's' ∨ v = 'v' then
          match args with
          | a :: args' => a.toList ++ sprintfAux rest' args'
          | [] => "%!".toList ++ v :: "(MISSING)".toList ++ sprintfAux rest' []
        else '%' :: v :: sprintfAux rest' args
    else c :: sprintfAux rest args

/-- The function `fmt.Sprintf`. -/
def Sprintf (format : String) (args : List String) : String :=
  String.mk (sprintfAux format.toList args)

/-- The function `fmt.Errorf`: the error whose text is the formatted message. -/
def Errorf (format : String) (args : List String) : String :=
  Sprintf format args

/-! ## Process-level primitives -/

/-- The function `os.Getenv`: the value of the variable, empty when it is unset. -/
def Getenv (env : String → Option String) (key : String) : String :=
  (env key).getD ""

/-- How a run of the program ends: everything it did, and the exit status. -/
structure Outcome where
  trace : List Event
  exitCode : Nat
  deriving DecidableEq, Repr

/-- The function `log.Fatalf`: logs the formatted message (the date and time the
logger puts in front of it are left out) and calls `os.Exit(1)`.  Deferred calls
are not run. -/
def logFatalf (t : List Event) (format : String) (args : List String) : Outcome :=
  { trace := t ++ [Event.LogFatal (Sprintf format args)], exitCode := 1 }

/-- A deferred call: it acts on the trace, and the flag tells whether it
panicked. -/
abbrev Deferred := List Event → List Event × Bool

/-- Runs the deferred calls, top of the stack first.  A panic in one of them does
not stop the ones below it. -/
def runDeferred : List Deferred → List Event → Bool → List Event × Bool
  | [], t, panicking => (t, panicking)
  | f :: fs, t, panicking => runDeferred fs (f t).1 (panicking || (f t).2)

/-- End of `main`: status 0 after a normal return, status 2 when a panic is still
in flight once the deferred calls have run. -/
def exitAfterDeferred (r : List Event × Bool) : Outcome :=
  { trace := r.1, exitCode := if r.2 then 2 else 0 }

/-! ## `connectPgx` -/

/-- What `connectPgx` returns (pool, cleanup, error), with the calls it made. -/
structure ConnectResult where
  pool : Option Pool
  cleanup : Option Cleanup
  err : Option String
  trace : List Event

/-- The function `connectPgx` of `main.go`. -/
def connectPgx (w : World) (instURI user dbname : String) (opts : List DialerOption) :
    ConnectResult :=
  match w.NewDialer opts with
  | .error err =>
    let noop : Cleanup := fun t => (none, t)
    { pool := none, cleanup := some noop,
      err := some (Errorf "failed to init Dialer: %v" [err]),
      trace := [Event.NewDialer opts] }
  | .ok d =>
    let cleanup : Cleanup := fun t => (w.DialerClose d, t ++ [Event.DialerClose d])
    let dsn := Sprintf "user=%s dbname=%s sslmode=disable" [user, dbname]
    match w.ParseConfig dsn with
    | .error err =>
      { pool := none, cleanup := some cleanup,
        err := some (Errorf "failed to parse pgx config: %v" [err]),
        trace := [Event.NewDialer opts, Event.ParseConfig dsn] }
    | .ok config =>
      let config := { config with DialFunc := some (d, instURI) }
      match w.NewWithConfig config with
      | .error connErr =>
        { pool := none, cleanup := some cleanup,
          err := some (Errorf "failed to connect: %s" [connErr]),
          trace := [Event.NewDialer opts, Event.ParseConfig dsn, Event.NewWithConfig config] }
      | .ok pool =>
        { pool := some pool, cleanup := some cleanup, err := none,
          trace := [Event.NewDialer opts, Event.ParseConfig dsn, Event.NewWithConfig config] }

/-! ## `main` -/

/-- The map literal `requiredEnvVars` of `main`, in the order it is written. -/
def requiredEnvVars (env : String → Option String) : List (String × String) :=
  [("PROJECT_ID", Getenv env "PROJECT_ID"),
   ("DB_REGION", Getenv env "DB_REGION"),
   ("DB_CLUSTER_NAME", Getenv env "DB_CLUSTER_NAME"),
   ("DB_INSTANCE_NAME", Getenv env "DB_INSTANCE_NAME"),
   ("DB_USER", Getenv env "DB_USER"),
   ("DB_NAME", Getenv env "DB_NAME")]

/-- The validation loop of `main` over the pairs in the order `range` yields
them: the first empty value ends the program through `log.Fatalf`. -/
def checkRequired : List (String × String) → Option Outcome
  | [] => none
  | (envVar, value) :: rest =>
    if value = "" then
      some (logFatalf [] "Required environment variable %s is not set" [envVar])
    else checkRequired rest

/-- The local `instanceURI` of `main`. -/
def instanceURI (projectID region clusterName instanceName : String) : String :=
  Sprintf "projects/%s/locations/%s/clusters/%s/instances/%s"
    [projectID, region, clusterName, instanceName]

/-- The deferred `cleanup()`; calling a nil function value panics. -/
def deferCleanup (cleanup : Option Cleanup) : Deferred := fun t =>
  match cleanup with
  | some f => ((f t).2, false)
  | none => (t ++ [Event.Panic], true)

/-- The deferred `pool.Close()`; a nil pool panics. -/
def deferPoolClose (pool : Option Pool) : Deferred := fun t =>
  match pool with
  | some p => (t ++ [Event.PoolClose p], false)
  | none => (t ++ [Event.Panic], true)

/-- The part of `main` after the call of `connectPgx`, given what it returned. -/
def afterConnect (w : World) (r : ConnectResult) : Outcome :=
  match r.err with
  | some err => logFatalf r.trace "Failed to connect to database: %v" [err]
  | none =>
    let deferred : List Deferred := [deferPoolClose r.pool, deferCleanup r.cleanup]
    match r.pool with
    | none => exitAfterDeferred (runDeferred deferred (r.trace ++ [Event.Panic]) true)
    | some pool =>
      let t := r.trace ++ [Event.QueryRow pool "SELECT NOW()"]
      match w.QueryRowScan pool "SELECT NOW()" with
      | .error err => logFatalf t "Failed to execute query: %v" [err]
      | .ok now =>
        let t := t ++ [Event.Printf (Sprintf "Current timestamp from database: %s\n" [now.text])]
        exitAfterDeferred (runDeferred deferred t false)

/-- The function `main` of `main.go`. -/
def main (env : String → Option String) (w : World) : Outcome :=
  let projectID := Getenv env "PROJECT_ID"
  let region := Getenv env "DB_REGION"
  let clusterName := Getenv env "DB_CLUSTER_NAME"
  let instanceName := Getenv env "DB_INSTANCE_NAME"
  let dbUser := Getenv env "DB_USER"
  let dbName := Getenv env "DB_NAME"
  match checkRequired (w.rangeOrder (requiredEnvVars env)) with
  | some fatal => fatal
  | none =>
    let instanceURI := instanceURI projectID region clusterName instanceName
    afterConnect w
      (connectPgx w instanceURI dbUser dbName [DialerOption.WithIAMAuthN])

/-! ## Observations on a trace -/

/-- Number of times a dialer was closed. -/
def dialerCloses (t : List Event) : Nat :=
  t.countP (fun e => match e with
    | Event.DialerClose _ => true
    | _ => false)

/-- Number of times a pool was closed. -/
def poolCloses (t : List Event) : Nat :=
  t.countP (fun e => match e with
    | Event.PoolClose _ => true
    | _ => false)

/-- What the program wrote to standard output, one entry per `fmt.Printf`. -/
def stdout (t : List Event) : List String :=
  t.filterMap (fun e => match e with
    | Event.Printf s => some s
    | _ => none)

/-- The messages the program ended on through `log.Fatalf`. -/
def fatalMessages (t : List Event) : List String :=
  t.filterMap (fun e => match e with
    | Event.LogFatal s => some s
    | _ => none)

/-- The names of the six required variables. -/
def requiredNames : List String :=
  ["PROJECT_ID", "DB_REGION", "DB_CLUSTER_NAME", "DB_INSTANCE_NAME", "DB_USER", "DB_NAME"]

/-- The runtime's `range` yields every entry of a map exactly once. -/
def IterationOrder (w : World) : Prop :=
  ∀ m, (w.rangeOrder m).Perm m

/-- All six required variables are set to a non-empty value. -/
def AllSet (env : String → Option String) : Prop :=
  ∀ k ∈ requiredNames, Getenv env k ≠ ""

/-- The fatal message of the outcome mentions the variable name. -/
def namesVariable (o : Outcome) (v : String) : Prop :=
  ∃ msg, Event.LogFatal msg ∈ o.trace ∧ v.toList <:+: msg.toList

/-! ## Sample inputs -/

/-- An environment with all six variables set. -/
def envFull : String → Option String := fun k =>
  if k = "PROJECT_ID" then some "proj1"
  else if k = "DB_REGION" then some "us-central1"
  else if k = "DB_CLUSTER_NAME" then some "mycluster"
  else if k = "DB_INSTANCE_NAME" then some "myinstance"
  else if k = "DB_USER" then some "alice"
  else if k = "DB_NAME" then some "appdb"
  else none

/-- An environment with none of the variables set. -/
def envNone : String → Option String := fun _ => none

/-- The environment `envFull` with `DB_REGION` set to the empty string. -/
def envNoRegion : String → Option String := fun k =>
  if k = "DB_REGION" then some "" else envFull k

/-- The environment `envFull` with `DB_REGION` and `DB_NAME` both left unset. -/
def envTwoMissing : String → Option String := fun k =>
  if k = "DB_REGION" ∨ k = "DB_NAME" then none else envFull k

/-- A world in which every library call succeeds and the query answers with the
given timestamp. -/
def worldOk (now : Time) : World :=
  { NewDialer := fun _ => .ok ⟨0⟩
    ParseConfig := fun s => .ok ⟨s, none⟩
    NewWithConfig := fun _ => .ok ⟨0⟩
    DialerClose := fun _ => none
    QueryRowScan := fun _ _ => .ok now
    rangeOrder := id }

/-- A world in which `alloydbconn.NewDialer` fails. -/
def worldDialerFails : World :=
  { worldOk ⟨""⟩ with NewDialer := fun _ => .error "no credentials" }

/-- A world in which `pgxpool.ParseConfig` fails. -/
def worldParseFails : World :=
  { worldOk ⟨""⟩ with ParseConfig := fun _ => .error "cannot parse" }

/-- A world in which `pgxpool.NewWithConfig` fails. -/
def worldPoolFails : World :=
  { worldOk ⟨""⟩ with NewWithConfig := fun _ => .error "dial error" }

/-- A world in which the pool is built and the query fails. -/
def worldQueryFails : World :=
  { worldOk ⟨""⟩ with QueryRowScan := fun _ _ => .error "connection refused" }

/-! ## Closed forms of the formatted strings -/

theorem instanceURI_eq (P R C I : String) :
    instanceURI P R C I
      = "projects/" ++ P ++ "/locations/" ++ R ++ "/clusters/" ++ C ++ "/instances/" ++ I := by
  show String.mk _ = _
  simp [sprintfAux, String.ext_iff]

theorem dsn_eq (user dbname : String) :
    Sprintf "user=%s dbname=%s sslmode=disable" [user, dbname]
      = "user=" ++ user ++ " dbname=" ++ dbname ++ " sslmode=disable" := by
  show String.mk _ = _
  simp [sprintfAux, String.ext_iff]

theorem errorf_dialer_eq (cause : String) :
    Errorf "failed to init Dialer: %v" [cause] = "failed to init Dialer: " ++ cause := by
  show String.mk _ = String.mk _
  simp [sprintfAux]

theorem errorf_parse_eq (cause : String) :
    Errorf "failed to parse pgx config: %v" [cause] = "failed to parse pgx config: " ++ cause := by
  show String.mk _ = String.mk _
  simp [sprintfAux]

theorem errorf_connect_eq (cause : String) :
    Errorf "failed to connect: %s" [cause] = "failed to connect: " ++ cause := by
  show String.mk _ = String.mk _
  simp [sprintfAux]

theorem fatal_required_eq (envVar : String) :
    Sprintf "Required environment variable %s is not set" [envVar]
      = "Required environment variable " ++ envVar ++ " is not set" :=
  rfl

theorem fatal_connect_eq (err : String) :
    Sprintf "Failed to connect to database: %v" [err] = "Failed to connect to database: " ++ err := by
  show String.mk _ = String.mk _
  simp [sprintfAux]

theorem fatal_query_eq (err : String) :
    Sprintf "Failed to execute query: %v" [err] = "Failed to execute query: " ++ err := by
  show String.mk _ = String.mk _
  simp [sprintfAux]

theorem printf_now_eq (now : String) :
    Sprintf "Current timestamp from database: %s\n" [now]
      = "Current timestamp from database: " ++ now ++ "\n" :=
  rfl

theorem split_at_slash (a b x y : List Char) (ha : '/' ∉ a) (hb : '/' ∉ b)
    (h : a ++ '/' :: x = b ++ '/' :: y) : a = b ∧ x = y := by
  induction a generalizing b with
  | nil =>
    cases b with
    | nil => simpa using h
    | cons c b =>
      simp at h hb
      exact absurd h.1 hb.1
  | cons c a ih =>
    cases b with
    | nil =>
      simp at h ha
      exact absurd h.1.symm ha.1
    | cons c' b =>
      simp at h ha hb
      obtain ⟨rfl, h⟩ := h
      obtain ⟨rfl, rfl⟩ := ih b ha.2 hb.2 h
      exact ⟨rfl, rfl⟩

/-! ## The validation loop -/

theorem checkRequired_eq_none (l : List (String × String)) :
    checkRequired l = none ↔ ∀ p ∈ l, p.2 ≠ "" := by
  induction l with
  | nil => simp [checkRequired]
  | cons p l ih =>
    obtain ⟨k, v⟩ := p
    by_cases hv : v = ""
    · simp [checkRequired, hv]
    · simp [checkRequired, hv, ih]

theorem checkRequired_fatal (l : List (String × String)) (h : ∃ p ∈ l, p.2 = "") :
    ∃ p ∈ l, p.2 = "" ∧
      checkRequired l
        = some (logFatalf [] "Required environment variable %s is not set" [p.1]) := by
  induction l with
  | nil => simp at h
  | cons p l ih =>
    obtain ⟨k, v⟩ := p
    by_cases hv : v = ""
    · exact ⟨(k, v), by simp, hv, by simp [checkRequired, hv]⟩
    · have h' : ∃ q ∈ l, q.2 = "" := by
        obtain ⟨q, hq, hq2⟩ := h
        rcases List.mem_cons.mp hq with rfl | hq
        · exact absurd hq2 hv
        · exact ⟨q, hq, hq2⟩
      obtain ⟨q, hq, hq2, hres⟩ := ih h'
      exact ⟨q, List.mem_cons_of_mem _ hq, hq2, by simp [checkRequired, hv, hres]⟩

/-- The entry the validation loop stops at is the first empty one: every entry
before it in the order iterated has a value. -/
theorem checkRequired_first (l : List (String × String)) (h : ∃ p ∈ l, p.2 = "") :
    ∃ pre k post, l = pre ++ (k, "") :: post ∧ (∀ p ∈ pre, p.2 ≠ "") ∧
      checkRequired l
        = some (logFatalf [] "Required environment variable %s is not set" [k]) := by
  induction l with
  | nil => simp at h
  | cons p l ih =>
    obtain ⟨k, v⟩ := p
    by_cases hv : v = ""
    · subst hv
      exact ⟨[], k, l, rfl, by simp, by simp [checkRequired]⟩
    · have h' : ∃ q ∈ l, q.2 = "" := by
        obtain ⟨q, hq, hq2⟩ := h
        rcases List.mem_cons.mp hq with rfl | hq
        · exact absurd hq2 hv
        · exact ⟨q, hq, hq2⟩
      obtain ⟨pre, k', post, hl, hpre, hres⟩ := ih h'
      refine ⟨(k, v) :: pre, k', post, by rw [hl]; rfl, ?_, by simp [checkRequired, hv, hres]⟩
      intro q hq
      rcases List.mem_cons.mp hq with rfl | hq
      · exact hv
      · exact hpre q hq

theorem mem_requiredEnvVars (env : String → Option String) (p : String × String) :
    p ∈ requiredEnvVars env ↔ p.1 ∈ requiredNames ∧ p.2 = Getenv env p.1 := by
  obtain ⟨k, v⟩ := p
  simp only [requiredEnvVars, requiredNames, List.mem_cons, Prod.mk.injEq, List.mem_singleton,
    List.mem_nil_iff, or_false]
  constructor
  · rintro (⟨rfl, rfl⟩ | ⟨rfl, rfl⟩ | ⟨rfl, rfl⟩ | ⟨rfl, rfl⟩ | ⟨rfl, rfl⟩ | ⟨rfl, rfl⟩) <;> simp
  · rintro ⟨rfl | rfl | rfl | rfl | rfl | rfl, rfl⟩ <;> simp

theorem checkRequired_passes (env : String → Option String) (w : World)
    (hperm : IterationOrder w) (hset : AllSet env) :
    checkRequired (w.rangeOrder (requiredEnvVars env)) = none := by
  rw [checkRequired_eq_none]
  intro p hp
  have hp' := (mem_requiredEnvVars env p).mp (((hperm _).mem_iff).mp hp)
  rw [hp'.2]
  exact hset _ hp'.1

theorem main_of_allSet (env : String → Option String) (w : World)
    (hperm : IterationOrder w) (hset : AllSet env) :
    main env w
      = afterConnect w (connectPgx w
          (instanceURI (Getenv env "PROJECT_ID") (Getenv env "DB_REGION")
            (Getenv env "DB_CLUSTER_NAME") (Getenv env "DB_INSTANCE_NAME"))
          (Getenv env "DB_USER") (Getenv env "DB_NAME") [DialerOption.WithIAMAuthN]) := by
  simp only [main, checkRequired_passes env w hperm hset]

theorem allSet_envFull : AllSet envFull := by
  intro k hk
  simp only [requiredNames, List.mem_cons, List.mem_singleton, List.mem_nil_iff, or_false] at hk
  rcases hk with rfl | rfl | rfl | rfl | rfl | rfl <;> decide

theorem iterationOrder_worldOk (now : Time) : IterationOrder (worldOk now) :=
  fun m => List.Perm.refl m

/-! ## The four ways through `connectPgx` -/

theorem connectPgx_dialer_error (w : World) (instURI user dbname : String)
    (opts : List DialerOption) (cause : String) (hd : w.NewDialer opts = .error cause) :
    connectPgx w instURI user dbname opts
      = { pool := none, cleanup := some (fun t => (none, t)),
          err := some ("failed to init Dialer: " ++ cause),
          trace := [Event.NewDialer opts] } := by
  simp only [connectPgx, hd, errorf_dialer_eq]

theorem connectPgx_parse_error (w : World) (instURI user dbname : String)
    (opts : List DialerOption) (d : Dialer) (cause : String)
    (hd : w.NewDialer opts = .ok d)
    (hp : w.ParseConfig ("user=" ++ user ++ " dbname=" ++ dbname ++ " sslmode=disable")
      = .error cause) :
    connectPgx w instURI user dbname opts
      = { pool := none,
          cleanup := some (fun t => (w.DialerClose d, t ++ [Event.DialerClose d])),
          err := some ("failed to parse pgx config: " ++ cause),
          trace := [Event.NewDialer opts,
            Event.ParseConfig ("user=" ++ user ++ " dbname=" ++ dbname ++ " sslmode=disable")] } := by
  simp only [connectPgx, hd, dsn_eq, hp, errorf_parse_eq]

theorem connectPgx_pool_error (w : World) (instURI user dbname : String)
    (opts : List DialerOption) (d : Dialer) (config : Config) (cause : String)
    (hd : w.NewDialer opts = .ok d)
    (hp : w.ParseConfig ("user=" ++ user ++ " dbname=" ++ dbname ++ " sslmode=disable")
      = .ok config)
    (hn : w.NewWithConfig { config with DialFunc := some (d, instURI) } = .error cause) :
    connectPgx w instURI user dbname opts
      = { pool := none,
          cleanup := some (fun t => (w.DialerClose d, t ++ [Event.DialerClose d])),
          err := some ("failed to connect: " ++ cause),
          trace := [Event.NewDialer opts,
            Event.ParseConfig ("user=" ++ user ++ " dbname=" ++ dbname ++ " sslmode=disable"),
            Event.NewWithConfig { config with DialFunc := some (d, instURI) }] } := by
  simp only [connectPgx, hd, dsn_eq, hp, hn, errorf_connect_eq]

theorem connectPgx_ok (w : World) (instURI user dbname : String)
    (opts : List DialerOption) (d : Dialer) (config : Config) (pool : Pool)
    (hd : w.NewDialer opts = .ok d)
    (hp : w.ParseConfig ("user=" ++ user ++ " dbname=" ++ dbname ++ " sslmode=disable")
      = .ok config)
    (hn : w.NewWithConfig { config with DialFunc := some (d, instURI) } = .ok pool) :
    connectPgx w instURI user dbname opts
      = { pool := some pool,
          cleanup := some (fun t => (w.DialerClose d, t ++ [Event.DialerClose d])),
          err := none,
          trace := [Event.NewDialer opts,
            Event.ParseConfig ("user=" ++ user ++ " dbname=" ++ dbname ++ " sslmode=disable"),
            Event.NewWithConfig { config with DialFunc := some (d, instURI) }] } := by
  simp only [connectPgx, hd, dsn_eq, hp, hn]

/-- The result of `connectPgx` is one of the four above. -/
theorem connectPgx_cases (w : World) (instURI user dbname : String)
    (opts : List DialerOption) :
    (∃ cause, w.NewDialer opts = .error cause) ∨
    (∃ d cause, w.NewDialer opts = .ok d ∧
      w.ParseConfig ("user=" ++ user ++ " dbname=" ++ dbname ++ " sslmode=disable")
        = .error cause) ∨
    (∃ d config cause, w.NewDialer opts = .ok d ∧
      w.ParseConfig ("user=" ++ user ++ " dbname=" ++ dbname ++ " sslmode=disable")
        = .ok config ∧
      w.NewWithConfig { config with DialFunc := some (d, instURI) } = .error cause) ∨
    (∃ d config pool, w.NewDialer opts = .ok d ∧
      w.ParseConfig ("user=" ++ user ++ " dbname=" ++ dbname ++ " sslmode=disable")
        = .ok config ∧
      w.NewWithConfig { config with DialFunc := some (d, instURI) } = .ok pool) := by
  cases hd : w.NewDialer opts with
  | error cause => exact Or.inl ⟨cause, rfl⟩
  | ok d =>
    cases hp : w.ParseConfig ("user=" ++ user ++ " dbname=" ++ dbname ++ " sslmode=disable") with
    | error cause => exact Or.inr (Or.inl ⟨d, cause, rfl, rfl⟩)
    | ok config =>
      cases hn : w.NewWithConfig { config with DialFunc := some (d, instURI) } with
      | error cause => exact Or.inr (Or.inr (Or.inl ⟨d, config, cause, rfl, rfl, hn⟩))
      | ok pool => exact Or.inr (Or.inr (Or.inr ⟨d, config, pool, rfl, rfl, hn⟩))

/-- When `connectPgx` reports no error, all three library calls succeeded. -/
theorem connectPgx_err_none (w : World) (instURI user dbname : String)
    (opts : List DialerOption) (h : (connectPgx w instURI user dbname opts).err = none) :
    ∃ d config pool, w.NewDialer opts = .ok d ∧
      w.ParseConfig ("user=" ++ user ++ " dbname=" ++ dbname ++ " sslmode=disable")
        = .ok config ∧
      w.NewWithConfig { config with DialFunc := some (d, instURI) } = .ok pool := by
  rcases connectPgx_cases w instURI user dbname opts with
    ⟨c, hd⟩ | ⟨d, c, hd, hp⟩ | ⟨d, cfg, c, hd, hp, hn⟩ | hok
  · rw [connectPgx_dialer_error w instURI user dbname opts c hd] at h
    simp at h
  · rw [connectPgx_parse_error w instURI user dbname opts d c hd hp] at h
    simp at h
  · rw [connectPgx_pool_error w instURI user dbname opts d cfg c hd hp hn] at h
    simp at h
  · exact hok

/-! ## The three ways through the rest of `main` -/

theorem afterConnect_err (w : World) (r : ConnectResult) (e : String) (h : r.err = some e) :
    afterConnect w r
      = { trace := r.trace ++ [Event.LogFatal ("Failed to connect to database: " ++ e)],
          exitCode := 1 } := by
  simp only [afterConnect, h, logFatalf, fatal_connect_eq]

theorem afterConnect_query_error (w : World) (r : ConnectResult) (p : Pool) (e : String)
    (herr : r.err = none) (hpool : r.pool = some p)
    (hq : w.QueryRowScan p "SELECT NOW()" = .error e) :
    afterConnect w r
      = { trace := r.trace ++ [Event.QueryRow p "SELECT NOW()",
            Event.LogFatal ("Failed to execute query: " ++ e)],
          exitCode := 1 } := by
  simp only [afterConnect, herr, hpool, hq, logFatalf, fatal_query_eq, List.append_assoc,
    List.singleton_append]

theorem afterConnect_query_ok (w : World) (r : ConnectResult) (p : Pool) (f : Cleanup)
    (now : Time) (herr : r.err = none) (hpool : r.pool = some p) (hf : r.cleanup = some f)
    (hq : w.QueryRowScan p "SELECT NOW()" = .ok now) :
    afterConnect w r
      = { trace := (f (r.trace ++ [Event.QueryRow p "SELECT NOW()",
            Event.Printf ("Current timestamp from database: " ++ now.text ++ "\n"),
            Event.PoolClose p])).2,
          exitCode := 0 } := by
  simp [afterConnect, herr, hpool, hf, hq, printf_now_eq, runDeferred, exitAfterDeferred,
    deferPoolClose, deferCleanup]

/-! ## The instance URI -/

/-- Claim C2: when all six variables pass validation, the identifier `main` hands to
`connectPgx` is `projects/P/locations/R/clusters/C/instances/I` with the four values
embedded unaltered; it is also the target of the dial override that reaches
`pgxpool.NewWithConfig`; and the sample values give the sample path. -/
theorem main_passes_instance_uri (env : String → Option String) (w : World)
    (hperm : IterationOrder w) (hset : AllSet env) :
    main env w
      = afterConnect w (connectPgx w
          ("projects/" ++ Getenv env "PROJECT_ID" ++ "/locations/" ++ Getenv env "DB_REGION"
            ++ "/clusters/" ++ Getenv env "DB_CLUSTER_NAME"
            ++ "/instances/" ++ Getenv env "DB_INSTANCE_NAME")
          (Getenv env "DB_USER") (Getenv env "DB_NAME") [DialerOption.WithIAMAuthN]) ∧
    (∀ config, Event.NewWithConfig config ∈ (main env w).trace →
      ∃ d, config.DialFunc
        = some (d, "projects/" ++ Getenv env "PROJECT_ID" ++ "/locations/"
            ++ Getenv env "DB_REGION" ++ "/clusters/" ++ Getenv env "DB_CLUSTER_NAME"
            ++ "/instances/" ++ Getenv env "DB_INSTANCE_NAME")) ∧
    instanceURI "proj1" "us-central1" "mycluster" "myinstance"
      = "projects/proj1/locations/us-central1/clusters/mycluster/instances/myinstance" := by
  have hmain := main_of_allSet env w hperm hset
  rw [instanceURI_eq] at hmain
  refine ⟨hmain, ?_, by decide⟩
  intro config hmem
  rw [hmain] at hmem
  rcases connectPgx_cases w
      ("projects/" ++ Getenv env "PROJECT_ID" ++ "/locations/" ++ Getenv env "DB_REGION"
        ++ "/clusters/" ++ Getenv env "DB_CLUSTER_NAME"
        ++ "/instances/" ++ Getenv env "DB_INSTANCE_NAME")
      (Getenv env "DB_USER") (Getenv env "DB_NAME") [DialerOption.WithIAMAuthN] with
    ⟨c, hd⟩ | ⟨d, c, hd, hp⟩ | ⟨d, cfg, c, hd, hp, hn⟩ | ⟨d, cfg, pool, hd, hp, hn⟩
  · rw [connectPgx_dialer_error _ _ _ _ _ c hd, afterConnect_err _ _ _ rfl] at hmem
    simp at hmem
  · rw [connectPgx_parse_error _ _ _ _ _ d c hd hp, afterConnect_err _ _ _ rfl] at hmem
    simp at hmem
  · rw [connectPgx_pool_error _ _ _ _ _ d cfg c hd hp hn, afterConnect_err _ _ _ rfl] at hmem
    simp at hmem
    exact ⟨d, by rw [hmem]⟩
  · rw [connectPgx_ok _ _ _ _ _ d cfg pool hd hp hn] at hmem
    cases hq : w.QueryRowScan pool "SELECT NOW()" with
    | error e =>
      rw [afterConnect_query_error _ _ pool e rfl rfl hq] at hmem
      simp at hmem
      exact ⟨d, by rw [hmem]⟩
    | ok now =>
      rw [afterConnect_query_ok _ _ pool _ now rfl rfl rfl hq] at hmem
      simp at hmem
      exact ⟨d, by rw [hmem]⟩

/-- Witness of claim C2 on the sample environment. -/
theorem main_passes_instance_uri_witness :
    IterationOrder (worldOk ⟨"2024-01-01 00:00:00 +0000 UTC"⟩) ∧ AllSet envFull ∧
    main envFull (worldOk ⟨"2024-01-01 00:00:00 +0000 UTC"⟩)
      = afterConnect (worldOk ⟨"2024-01-01 00:00:00 +0000 UTC"⟩)
          (connectPgx (worldOk ⟨"2024-01-01 00:00:00 +0000 UTC"⟩)
            ("projects/" ++ Getenv envFull "PROJECT_ID" ++ "/locations/"
              ++ Getenv envFull "DB_REGION" ++ "/clusters/" ++ Getenv envFull "DB_CLUSTER_NAME"
              ++ "/instances/" ++ Getenv envFull "DB_INSTANCE_NAME")
            (Getenv envFull "DB_USER") (Getenv envFull "DB_NAME")
            [DialerOption.WithIAMAuthN]) :=
  ⟨iterationOrder_worldOk _, allSet_envFull,
    (main_passes_instance_uri envFull (worldOk ⟨"2024-01-01 00:00:00 +0000 UTC"⟩)
      (iterationOrder_worldOk _) allSet_envFull).1⟩

/-- Claim C10: on values without a slash the composition of the instance URI is
injective: equal identifiers come from equal project, region, cluster and
instance. -/
theorem instanceURI_injective (P R C I P' R' C' I' : String)
    (hP : '/' ∉ P.toList) (hR : '/' ∉ R.toList) (hC : '/' ∉ C.toList) (hI : '/' ∉ I.toList)
    (hP' : '/' ∉ P'.toList) (hR' : '/' ∉ R'.toList) (hC' : '/' ∉ C'.toList)
    (hI' : '/' ∉ I'.toList)
    (h : instanceURI P R C I = instanceURI P' R' C' I') :
    P = P' ∧ R = R' ∧ C = C' ∧ I = I' := by
  have _ := hI
  have _ := hI'
  rw [instanceURI_eq, instanceURI_eq] at h
  have hl := congrArg String.toList h
  simp only [String.toList, String.data_append, List.append_assoc] at hl
  simp only [List.cons_append, List.nil_append, List.cons.injEq, true_and] at hl
  obtain ⟨hPP, h2⟩ := split_at_slash _ _ _ _ hP hP' hl
  simp only [List.cons.injEq, true_and] at h2
  obtain ⟨hRR, h4⟩ := split_at_slash _ _ _ _ hR hR' h2
  simp only [List.cons.injEq, true_and] at h4
  obtain ⟨hCC, h6⟩ := split_at_slash _ _ _ _ hC hC' h4
  simp only [List.cons.injEq, true_and] at h6
  exact ⟨String.ext hPP, String.ext hRR, String.ext hCC, String.ext h6⟩

/-- Witness of claim C10 on the sample values. -/
theorem instanceURI_injective_witness :
    '/' ∉ "proj1".toList ∧ '/' ∉ "us-central1".toList ∧ '/' ∉ "mycluster".toList ∧
    '/' ∉ "myinstance".toList ∧
    instanceURI "proj1" "us-central1" "mycluster" "myinstance"
      = instanceURI "proj1" "us-central1" "mycluster" "myinstance" ∧
    ("proj1" = "proj1" ∧ "us-central1" = "us-central1" ∧ "mycluster" = "mycluster" ∧
      "myinstance" = "myinstance") :=
  ⟨by decide, by decide, by decide, by decide, rfl,
    instanceURI_injective "proj1" "us-central1" "mycluster" "myinstance"
      "proj1" "us-central1" "mycluster" "myinstance"
      (by decide) (by decide) (by decide) (by decide) (by decide) (by decide) (by decide)
      (by decide) rfl⟩

/-! ## `connectPgx`: connection string and failures -/

/-- Claim C9: the only string `connectPgx` hands to `pgxpool.ParseConfig` is
`user=<u> dbname=<d> sslmode=disable`, and it hands it over whenever the dialer
was created. -/
theorem connectPgx_dsn (w : World) (instURI user dbname : String)
    (opts : List DialerOption) :
    (∀ s, Event.ParseConfig s ∈ (connectPgx w instURI user dbname opts).trace →
      s = "user=" ++ user ++ " dbname=" ++ dbname ++ " sslmode=disable") ∧
    (∀ d, w.NewDialer opts = .ok d →
      ((connectPgx w instURI user dbname opts).trace.filter
          (fun e => match e with
            | Event.ParseConfig _ => true
            | _ => false))
        = [Event.ParseConfig ("user=" ++ user ++ " dbname=" ++ dbname ++ " sslmode=disable")]) := by
  rcases connectPgx_cases w instURI user dbname opts with
    ⟨c, hd⟩ | ⟨d, c, hd, hp⟩ | ⟨d, cfg, c, hd, hp, hn⟩ | ⟨d, cfg, pool, hd, hp, hn⟩
  · rw [connectPgx_dialer_error _ _ _ _ _ c hd]
    constructor
    · intro s hs
      simp at hs
    · intro d hd'
      rw [hd] at hd'
      cases hd'
  · rw [connectPgx_parse_error _ _ _ _ _ d c hd hp]
    constructor
    · intro s hs
      simpa using hs
    · intro _ _
      simp [List.filter]
  · rw [connectPgx_pool_error _ _ _ _ _ d cfg c hd hp hn]
    constructor
    · intro s hs
      simpa using hs
    · intro _ _
      simp [List.filter]
  · rw [connectPgx_ok _ _ _ _ _ d cfg pool hd hp hn]
    constructor
    · intro s hs
      simpa using hs
    · intro _ _
      simp [List.filter]

/-- Witness of claim C9: with user `alice` and database `appdb` the string parsed
is `user=alice dbname=appdb sslmode=disable`. -/
theorem connectPgx_dsn_witness :
    Event.ParseConfig "user=alice dbname=appdb sslmode=disable"
        ∈ (connectPgx worldPoolFails "uri" "alice" "appdb" []).trace ∧
      "user=alice dbname=appdb sslmode=disable"
        = "user=" ++ "alice" ++ " dbname=" ++ "appdb" ++ " sslmode=disable" :=
  ⟨by decide,
    (connectPgx_dsn worldPoolFails "uri" "alice" "appdb" []).1 _ (by decide)⟩

/-- Claim C5: when `alloydbconn.NewDialer` fails, `connectPgx` returns a nil pool
and the error `failed to init Dialer: <cause>`, its only library call is
`NewDialer` (so neither `ParseConfig` nor `NewWithConfig` is called), and `main`
ends through `log.Fatalf` with that error and status 1. -/
theorem connectPgx_dialer_failure (w : World) (instURI user dbname : String)
    (opts : List DialerOption) (cause : String) (hd : w.NewDialer opts = .error cause) :
    (connectPgx w instURI user dbname opts).pool = none ∧
    (connectPgx w instURI user dbname opts).err = some ("failed to init Dialer: " ++ cause) ∧
    (connectPgx w instURI user dbname opts).trace = [Event.NewDialer opts] ∧
    (∀ env, IterationOrder w → AllSet env → opts = [DialerOption.WithIAMAuthN] →
      main env w
        = { trace := [Event.NewDialer [DialerOption.WithIAMAuthN],
              Event.LogFatal
                ("Failed to connect to database: " ++ ("failed to init Dialer: " ++ cause))],
            exitCode := 1 }) := by
  refine ⟨?_, ?_, ?_, ?_⟩
  · rw [connectPgx_dialer_error _ _ _ _ _ cause hd]
  · rw [connectPgx_dialer_error _ _ _ _ _ cause hd]
  · rw [connectPgx_dialer_error _ _ _ _ _ cause hd]
  · intro env hperm hset hopts
    subst hopts
    rw [main_of_allSet env w hperm hset, connectPgx_dialer_error _ _ _ _ _ cause hd,
      afterConnect_err _ _ _ rfl]
    rfl

/-- Witness of claim C5 in a world whose dialer cannot be created. -/
theorem connectPgx_dialer_failure_witness :
    worldDialerFails.NewDialer [DialerOption.WithIAMAuthN] = .error "no credentials" ∧
    (connectPgx worldDialerFails "uri" "alice" "appdb" [DialerOption.WithIAMAuthN]).err
      = some ("failed to init Dialer: " ++ "no credentials") ∧
    main envFull worldDialerFails
      = { trace := [Event.NewDialer [DialerOption.WithIAMAuthN],
            Event.LogFatal
              ("Failed to connect to database: " ++ ("failed to init Dialer: " ++ "no credentials"))],
          exitCode := 1 } :=
  ⟨rfl,
    (connectPgx_dialer_failure worldDialerFails "uri" "alice" "appdb"
      [DialerOption.WithIAMAuthN] "no credentials" rfl).2.1,
    (connectPgx_dialer_failure worldDialerFails "uri" "alice" "appdb"
      [DialerOption.WithIAMAuthN] "no credentials" rfl).2.2.2 envFull
        (fun m => List.Perm.refl m) allSet_envFull rfl⟩

/-- Claim C8: a failing `connectPgx` returns a nil pool, a non-nil cleanup and an
error naming the first step that failed: `failed to init Dialer: ` with a cleanup
that does nothing and returns nil, `failed to parse pgx config: ` or
`failed to connect: ` with a cleanup that closes the dialer already created.  The
error is nil and the pool non-nil exactly when the three steps succeed. -/
theorem connectPgx_failure_contract (w : World) (instURI user dbname : String)
    (opts : List DialerOption) :
    ((connectPgx w instURI user dbname opts).err ≠ none →
      (connectPgx w instURI user dbname opts).pool = none ∧
      (connectPgx w instURI user dbname opts).cleanup.isSome = true) ∧
    (∀ cause, w.NewDialer opts = .error cause →
      (connectPgx w instURI user dbname opts).err = some ("failed to init Dialer: " ++ cause) ∧
      ∃ f, (connectPgx w instURI user dbname opts).cleanup = some f ∧ ∀ t, f t = (none, t)) ∧
    (∀ d cause, w.NewDialer opts = .ok d →
      w.ParseConfig ("user=" ++ user ++ " dbname=" ++ dbname ++ " sslmode=disable")
        = .error cause →
      (connectPgx w instURI user dbname opts).err
        = some ("failed to parse pgx config: " ++ cause) ∧
      ∃ f, (connectPgx w instURI user dbname opts).cleanup = some f ∧
        ∀ t, f t = (w.DialerClose d, t ++ [Event.DialerClose d])) ∧
    (∀ d config cause, w.NewDialer opts = .ok d →
      w.ParseConfig ("user=" ++ user ++ " dbname=" ++ dbname ++ " sslmode=disable")
        = .ok config →
      w.NewWithConfig { config with DialFunc := some (d, instURI) } = .error cause →
      (connectPgx w instURI user dbname opts).err = some ("failed to connect: " ++ cause) ∧
      ∃ f, (connectPgx w instURI user dbname opts).cleanup = some f ∧
        ∀ t, f t = (w.DialerClose d, t ++ [Event.DialerClose d])) ∧
    (((connectPgx w instURI user dbname opts).err = none ∧
        (connectPgx w instURI user dbname opts).pool ≠ none) ↔
      ∃ d config pool, w.NewDialer opts = .ok d ∧
        w.ParseConfig ("user=" ++ user ++ " dbname=" ++ dbname ++ " sslmode=disable")
          = .ok config ∧
        w.NewWithConfig { config with DialFunc := some (d, instURI) } = .ok pool) := by
  refine ⟨?_, ?_, ?_, ?_, ?_⟩
  · intro herr
    rcases connectPgx_cases w instURI user dbname opts with
      ⟨c, hd⟩ | ⟨d, c, hd, hp⟩ | ⟨d, cfg, c, hd, hp, hn⟩ | ⟨d, cfg, pool, hd, hp, hn⟩
    · rw [connectPgx_dialer_error _ _ _ _ _ c hd]
      exact ⟨rfl, rfl⟩
    · rw [connectPgx_parse_error _ _ _ _ _ d c hd hp]
      exact ⟨rfl, rfl⟩
    · rw [connectPgx_pool_error _ _ _ _ _ d cfg c hd hp hn]
      exact ⟨rfl, rfl⟩
    · rw [connectPgx_ok _ _ _ _ _ d cfg pool hd hp hn] at herr
      exact absurd rfl herr
  · intro c hd
    rw [connectPgx_dialer_error _ _ _ _ _ c hd]
    exact ⟨rfl, _, rfl, fun _ => rfl⟩
  · intro d c hd hp
    rw [connectPgx_parse_error _ _ _ _ _ d c hd hp]
    exact ⟨rfl, _, rfl, fun _ => rfl⟩
  · intro d cfg c hd hp hn
    rw [connectPgx_pool_error _ _ _ _ _ d cfg c hd hp hn]
    exact ⟨rfl, _, rfl, fun _ => rfl⟩
  · constructor
    · intro h
      exact connectPgx_err_none w instURI user dbname opts h.1
    · rintro ⟨d, cfg, pool, hd, hp, hn⟩
      rw [connectPgx_ok _ _ _ _ _ d cfg pool hd hp hn]
      exact ⟨rfl, by simp⟩

/-- Witness of claim C8 in a world whose pool cannot be built: the error names the
pool construction and the cleanup returned closes the dialer. -/
theorem connectPgx_failure_contract_witness :
    (connectPgx worldPoolFails "uri" "alice" "appdb" []).err
        = some ("failed to connect: " ++ "dial error") ∧
      ∃ f, (connectPgx worldPoolFails "uri" "alice" "appdb" []).cleanup = some f ∧
        ∀ t, f t = (worldPoolFails.DialerClose ⟨0⟩, t ++ [Event.DialerClose ⟨0⟩]) :=
  (connectPgx_failure_contract worldPoolFails "uri" "alice" "appdb" []).2.2.2.1
    ⟨0⟩ ⟨"user=alice dbname=appdb sslmode=disable", none⟩ "dial error" rfl
    (congrArg (fun s => Except.ok (Config.mk s none)) (by decide)) rfl

/-! ## Validation of the environment -/

/-- When validation fails, `main` is the `log.Fatalf` of the first empty entry in
iteration order, and nothing else has happened. -/
theorem main_of_missing (env : String → Option String) (w : World)
    (hperm : IterationOrder w) (h : ∃ k ∈ requiredNames, Getenv env k = "") :
    ∃ k ∈ requiredNames, Getenv env k = "" ∧
      main env w
        = { trace := [Event.LogFatal ("Required environment variable " ++ k ++ " is not set")],
            exitCode := 1 } := by
  obtain ⟨v, hv, hempty⟩ := h
  have hin : (v, Getenv env v) ∈ w.rangeOrder (requiredEnvVars env) :=
    ((hperm _).mem_iff).mpr ((mem_requiredEnvVars env (v, Getenv env v)).mpr ⟨hv, rfl⟩)
  obtain ⟨p, hp, hp2, hres⟩ :=
    checkRequired_fatal (w.rangeOrder (requiredEnvVars env)) ⟨(v, Getenv env v), hin, hempty⟩
  have hp' := (mem_requiredEnvVars env p).mp (((hperm _).mem_iff).mp hp)
  refine ⟨p.1, hp'.1, by rw [← hp'.2]; exact hp2, ?_⟩
  simp only [main, hres, logFatalf, fatal_required_eq, List.nil_append]

/-- Claim C1, as the code has it: when one of the six variables is empty or unset,
`main` ends through `log.Fatalf` with status 1 before any call of `connectPgx`,
and the message names a variable that is empty or unset, namely the first empty
entry in the order in which the map is iterated (every entry before it has a
value); it names the given variable when that is the only one missing. -/
theorem main_missing_variable_fatal (env : String → Option String) (w : World) (v : String)
    (hperm : IterationOrder w) (hv : v ∈ requiredNames) (hempty : Getenv env v = "") :
    ∃ k ∈ requiredNames, Getenv env k = "" ∧
      (∃ pre post, w.rangeOrder (requiredEnvVars env) = pre ++ (k, "") :: post ∧
        ∀ p ∈ pre, p.2 ≠ "") ∧
      main env w
        = { trace := [Event.LogFatal ("Required environment variable " ++ k ++ " is not set")],
            exitCode := 1 } ∧
      ((∀ k' ∈ requiredNames, Getenv env k' = "" → k' = v) → k = v) := by
  have hin : (v, Getenv env v) ∈ w.rangeOrder (requiredEnvVars env) :=
    ((hperm _).mem_iff).mpr ((mem_requiredEnvVars env (v, Getenv env v)).mpr ⟨hv, rfl⟩)
  obtain ⟨pre, k, post, hl, hpre, hres⟩ :=
    checkRequired_first (w.rangeOrder (requiredEnvVars env)) ⟨(v, Getenv env v), hin, hempty⟩
  have hmem : (k, "") ∈ w.rangeOrder (requiredEnvVars env) := by
    rw [hl]
    simp
  have hk := (mem_requiredEnvVars env (k, "")).mp (((hperm _).mem_iff).mp hmem)
  have hkempty : Getenv env k = "" := hk.2.symm
  refine ⟨k, hk.1, hkempty, ⟨pre, post, hl, hpre⟩, ?_, fun honly => honly k hk.1 hkempty⟩
  simp only [main, hres, logFatalf, fatal_required_eq, List.nil_append]

/-- Witness of claim C1: with only `DB_REGION` empty, the message names it. -/
theorem main_missing_variable_fatal_witness :
    IterationOrder (worldOk ⟨""⟩) ∧ "DB_REGION" ∈ requiredNames ∧
    Getenv envNoRegion "DB_REGION" = "" ∧
    ∃ k ∈ requiredNames, Getenv envNoRegion k = "" ∧
      (∃ pre post,
        (worldOk ⟨""⟩).rangeOrder (requiredEnvVars envNoRegion) = pre ++ (k, "") :: post ∧
        ∀ p ∈ pre, p.2 ≠ "") ∧
      main envNoRegion (worldOk ⟨""⟩)
        = { trace := [Event.LogFatal ("Required environment variable " ++ k ++ " is not set")],
            exitCode := 1 } ∧
      ((∀ k' ∈ requiredNames, Getenv envNoRegion k' = "" → k' = "DB_REGION") →
        k = "DB_REGION") :=
  ⟨iterationOrder_worldOk _, by decide, by decide,
    main_missing_variable_fatal envNoRegion (worldOk ⟨""⟩) "DB_REGION"
      (iterationOrder_worldOk _) (by decide) (by decide)⟩

/-- With `DB_REGION` and `DB_NAME` both unset and the map iterated in the order it
is written, the loop stops at `DB_REGION`, the earlier of the two. -/
theorem main_two_missing_names_first :
    main envTwoMissing (worldOk ⟨""⟩)
      = { trace := [Event.LogFatal "Required environment variable DB_REGION is not set"],
          exitCode := 1 } := by
  decide

/-- Counterexample to claim C1 as stated: with no variable set, `DB_REGION` is
unset and the fatal message is the one for `PROJECT_ID`, which does not mention
`DB_REGION`; and whatever order the map is iterated in, some unset variable is
left out of the message. -/
theorem main_missing_variable_not_named :
    IterationOrder (worldOk ⟨""⟩) ∧ "DB_REGION" ∈ requiredNames ∧
    Getenv envNone "DB_REGION" = "" ∧
    main envNone (worldOk ⟨""⟩)
      = { trace := [Event.LogFatal "Required environment variable PROJECT_ID is not set"],
          exitCode := 1 } ∧
    ¬ namesVariable (main envNone (worldOk ⟨""⟩)) "DB_REGION" ∧
    (∀ w, IterationOrder w →
      ∃ v ∈ requiredNames, Getenv envNone v = "" ∧ ¬ namesVariable (main envNone w) v) := by
  refine ⟨iterationOrder_worldOk _, by decide, by decide, by decide, ?_, ?_⟩
  · rintro ⟨msg, hmem, hsub⟩
    have hm : main envNone (worldOk ⟨""⟩)
        = { trace := [Event.LogFatal "Required environment variable PROJECT_ID is not set"],
            exitCode := 1 } := by decide
    rw [hm] at hmem
    simp only [List.mem_singleton, Event.LogFatal.injEq] at hmem
    subst hmem
    revert hsub
    decide
  · intro w hperm
    obtain ⟨k, hk, _, hmain⟩ :=
      main_of_missing envNone w hperm ⟨"PROJECT_ID", by decide, by decide⟩
    by_cases hkp : k = "PROJECT_ID"
    · refine ⟨"DB_REGION", by decide, by decide, ?_⟩
      rintro ⟨msg, hmem, hsub⟩
      rw [hmain, hkp] at hmem
      simp only [List.mem_singleton, Event.LogFatal.injEq] at hmem
      subst hmem
      revert hsub
      decide
    · refine ⟨"PROJECT_ID", by decide, by decide, ?_⟩
      rintro ⟨msg, hmem, hsub⟩
      rw [hmain] at hmem
      simp only [List.mem_singleton, Event.LogFatal.injEq] at hmem
      subst hmem
      simp only [requiredNames, List.mem_cons, List.mem_singleton, List.mem_nil_iff,
        or_false] at hk
      rcases hk with rfl | rfl | rfl | rfl | rfl | rfl
      · exact hkp rfl
      all_goals
        revert hsub
        decide

/-! ## The query and the release of the resources -/

/-- Claim C7: with all six variables set, `connectPgx` successful and the query
answering `T`, standard output is the single line
`Current timestamp from database: T`, the pool and the dialer are each closed
exactly once, and the program exits with status 0. -/
theorem main_success (env : String → Option String) (w : World) (T : Time)
    (hperm : IterationOrder w) (hset : AllSet env)
    (hconn : (connectPgx w
        (instanceURI (Getenv env "PROJECT_ID") (Getenv env "DB_REGION")
          (Getenv env "DB_CLUSTER_NAME") (Getenv env "DB_INSTANCE_NAME"))
        (Getenv env "DB_USER") (Getenv env "DB_NAME") [DialerOption.WithIAMAuthN]).err = none)
    (hq : ∀ p, (connectPgx w
        (instanceURI (Getenv env "PROJECT_ID") (Getenv env "DB_REGION")
          (Getenv env "DB_CLUSTER_NAME") (Getenv env "DB_INSTANCE_NAME"))
        (Getenv env "DB_USER") (Getenv env "DB_NAME") [DialerOption.WithIAMAuthN]).pool = some p →
      w.QueryRowScan p "SELECT NOW()" = .ok T) :
    stdout (main env w).trace = ["Current timestamp from database: " ++ T.text ++ "\n"] ∧
    poolCloses (main env w).trace = 1 ∧
    dialerCloses (main env w).trace = 1 ∧
    (main env w).exitCode = 0 := by
  obtain ⟨d, cfg, pool, hd, hp, hn⟩ := connectPgx_err_none _ _ _ _ _ hconn
  have hr := connectPgx_ok _ _ _ _ _ d cfg pool hd hp hn
  have hq' := hq pool (by rw [hr])
  rw [main_of_allSet env w hperm hset, hr, afterConnect_query_ok _ _ pool _ T rfl rfl rfl hq']
  simp [stdout, poolCloses, dialerCloses, List.filterMap, List.countP_cons]

/-- Witness of claim C7 on the sample environment. -/
theorem main_success_witness :
    stdout (main envFull (worldOk ⟨"2024-01-01 00:00:00 +0000 UTC"⟩)).trace
        = ["Current timestamp from database: " ++ "2024-01-01 00:00:00 +0000 UTC" ++ "\n"] ∧
    poolCloses (main envFull (worldOk ⟨"2024-01-01 00:00:00 +0000 UTC"⟩)).trace = 1 ∧
    dialerCloses (main envFull (worldOk ⟨"2024-01-01 00:00:00 +0000 UTC"⟩)).trace = 1 ∧
    (main envFull (worldOk ⟨"2024-01-01 00:00:00 +0000 UTC"⟩)).exitCode = 0 :=
  main_success envFull (worldOk ⟨"2024-01-01 00:00:00 +0000 UTC"⟩)
    ⟨"2024-01-01 00:00:00 +0000 UTC"⟩ (iterationOrder_worldOk _) allSet_envFull rfl
    (fun _ _ => rfl)

/-- Claim C6: when the pool is obtained and the query fails, `main` ends through
`log.Fatalf` with `Failed to execute query: <cause>` as its last act, the exit
status is 1, and nothing is written to standard output. -/
theorem main_query_failure (env : String → Option String) (w : World) (cause : String)
    (hperm : IterationOrder w) (hset : AllSet env)
    (hconn : (connectPgx w
        (instanceURI (Getenv env "PROJECT_ID") (Getenv env "DB_REGION")
          (Getenv env "DB_CLUSTER_NAME") (Getenv env "DB_INSTANCE_NAME"))
        (Getenv env "DB_USER") (Getenv env "DB_NAME") [DialerOption.WithIAMAuthN]).err = none)
    (hq : ∀ p, (connectPgx w
        (instanceURI (Getenv env "PROJECT_ID") (Getenv env "DB_REGION")
          (Getenv env "DB_CLUSTER_NAME") (Getenv env "DB_INSTANCE_NAME"))
        (Getenv env "DB_USER") (Getenv env "DB_NAME") [DialerOption.WithIAMAuthN]).pool = some p →
      w.QueryRowScan p "SELECT NOW()" = .error cause) :
    fatalMessages (main env w).trace = ["Failed to execute query: " ++ cause] ∧
    (main env w).trace.getLast? = some (Event.LogFatal ("Failed to execute query: " ++ cause)) ∧
    (main env w).exitCode = 1 ∧
    (main env w).exitCode ≠ 0 ∧
    stdout (main env w).trace = [] := by
  obtain ⟨d, cfg, pool, hd, hp, hn⟩ := connectPgx_err_none _ _ _ _ _ hconn
  have hr := connectPgx_ok _ _ _ _ _ d cfg pool hd hp hn
  have hq' := hq pool (by rw [hr])
  rw [main_of_allSet env w hperm hset, hr, afterConnect_query_error _ _ pool cause rfl rfl hq']
  simp [stdout, fatalMessages, List.filterMap]

/-- Witness of claim C6 in a world whose query fails. -/
theorem main_query_failure_witness :
    fatalMessages (main envFull worldQueryFails).trace
        = ["Failed to execute query: " ++ "connection refused"] ∧
    (main envFull worldQueryFails).trace.getLast?
        = some (Event.LogFatal ("Failed to execute query: " ++ "connection refused")) ∧
    (main envFull worldQueryFails).exitCode = 1 ∧
    (main envFull worldQueryFails).exitCode ≠ 0 ∧
    stdout (main envFull worldQueryFails).trace = [] :=
  main_query_failure envFull worldQueryFails "connection refused"
    (fun m => List.Perm.refl m) allSet_envFull rfl (fun _ _ => rfl)

/-- On every run whose query fails after a successful `connectPgx`, no dialer and
no pool is closed before the process exits. -/
theorem main_query_error_closes_nothing (env : String → Option String) (w : World)
    (d : Dialer) (config : Config) (pool : Pool) (cause : String)
    (hperm : IterationOrder w) (hset : AllSet env)
    (hd : w.NewDialer [DialerOption.WithIAMAuthN] = .ok d)
    (hp : w.ParseConfig
        ("user=" ++ Getenv env "DB_USER" ++ " dbname=" ++ Getenv env "DB_NAME"
          ++ " sslmode=disable") = .ok config)
    (hn : w.NewWithConfig
        { config with DialFunc := some (d,
            instanceURI (Getenv env "PROJECT_ID") (Getenv env "DB_REGION")
              (Getenv env "DB_CLUSTER_NAME") (Getenv env "DB_INSTANCE_NAME")) } = .ok pool)
    (hq : w.QueryRowScan pool "SELECT NOW()" = .error cause) :
    dialerCloses (main env w).trace = 0 ∧ poolCloses (main env w).trace = 0 := by
  rw [main_of_allSet env w hperm hset, connectPgx_ok _ _ _ _ _ d config pool hd hp hn,
    afterConnect_query_error _ _ pool cause rfl rfl hq]
  simp [dialerCloses, poolCloses, List.countP_cons]

/-- On every run whose pool cannot be built after the dialer was created, the
dialer is not closed before the process exits. -/
theorem main_pool_error_closes_nothing (env : String → Option String) (w : World)
    (d : Dialer) (config : Config) (cause : String)
    (hperm : IterationOrder w) (hset : AllSet env)
    (hd : w.NewDialer [DialerOption.WithIAMAuthN] = .ok d)
    (hp : w.ParseConfig
        ("user=" ++ Getenv env "DB_USER" ++ " dbname=" ++ Getenv env "DB_NAME"
          ++ " sslmode=disable") = .ok config)
    (hn : w.NewWithConfig
        { config with DialFunc := some (d,
            instanceURI (Getenv env "PROJECT_ID") (Getenv env "DB_REGION")
              (Getenv env "DB_CLUSTER_NAME") (Getenv env "DB_INSTANCE_NAME")) } = .error cause) :
    dialerCloses (main env w).trace = 0 := by
  rw [main_of_allSet env w hperm hset, connectPgx_pool_error _ _ _ _ _ d config cause hd hp hn,
    afterConnect_err _ _ _ rfl]
  simp [dialerCloses, List.countP_cons]

/-- A successful `connectPgx` never comes with a nil pool or a nil cleanup, so the
panics of `afterConnect` are out of reach of `main`. -/
theorem connectPgx_ok_not_nil (w : World) (instURI user dbname : String)
    (opts : List DialerOption) (h : (connectPgx w instURI user dbname opts).err = none) :
    (connectPgx w instURI user dbname opts).pool.isSome = true ∧
    (connectPgx w instURI user dbname opts).cleanup.isSome = true := by
  obtain ⟨d, cfg, pool, hd, hp, hn⟩ := connectPgx_err_none _ _ _ _ _ h
  rw [connectPgx_ok _ _ _ _ _ d cfg pool hd hp hn]
  exact ⟨rfl, rfl⟩

/-- Claim C3 fails on the code: with all six variables set and `connectPgx`
successful, a failing query ends `main` through `log.Fatalf`, and neither the
dialer nor the pool has been closed when the process exits. -/
theorem main_query_failure_skips_cleanup :
    (connectPgx worldQueryFails
        (instanceURI "proj1" "us-central1" "mycluster" "myinstance") "alice" "appdb"
        [DialerOption.WithIAMAuthN]).err = none ∧
    main envFull worldQueryFails
      = { trace := [Event.NewDialer [DialerOption.WithIAMAuthN],
            Event.ParseConfig "user=alice dbname=appdb sslmode=disable",
            Event.NewWithConfig
              ⟨"user=alice dbname=appdb sslmode=disable",
                some (⟨0⟩,
                  "projects/proj1/locations/us-central1/clusters/mycluster/instances/myinstance")⟩,
            Event.QueryRow ⟨0⟩ "SELECT NOW()",
            Event.LogFatal "Failed to execute query: connection refused"],
          exitCode := 1 } ∧
    dialerCloses (main envFull worldQueryFails).trace = 0 ∧
    poolCloses (main envFull worldQueryFails).trace = 0 := by
  refine ⟨by decide, by decide, by decide, by decide⟩

/-- Claim C4 fails on the code: when the dialer is created and the pool cannot be
built, `connectPgx` returns the cleanup that closes the dialer, and `main` ends
through `log.Fatalf` without calling it: the dialer is closed zero times. -/
theorem main_pool_failure_skips_cleanup :
    (∃ f, (connectPgx worldPoolFails
        (instanceURI "proj1" "us-central1" "mycluster" "myinstance") "alice" "appdb"
        [DialerOption.WithIAMAuthN]).cleanup = some f ∧
      f [] = (none, [Event.DialerClose ⟨0⟩])) ∧
    main envFull worldPoolFails
      = { trace := [Event.NewDialer [DialerOption.WithIAMAuthN],
            Event.ParseConfig "user=alice dbname=appdb sslmode=disable",
            Event.NewWithConfig
              ⟨"user=alice dbname=appdb sslmode=disable",
                some (⟨0⟩,
                  "projects/proj1/locations/us-central1/clusters/mycluster/instances/myinstance")⟩,
            Event.LogFatal "Failed to connect to database: failed to connect: dial error"],
          exitCode := 1 } ∧
    dialerCloses (main envFull worldPoolFails).trace = 0 := by
  refine ⟨⟨_, rfl, rfl⟩, by decide, by decide⟩

end AlloyDBConn
